import Mathlib

/-
Shallow embedding of the mechanical keyboard sound engine of this repository
(the KeySoundEngine class and its PROFILES table).

Modelling conventions:
- Numeric parameters are embedded as exact rationals; the decimal literals
  below are the decimal constants of the source.
- Math.random() draws are modelled by an explicit stream of rationals in
  [0, 1), indexed by a cursor (randPos) held in the engine state; each
  jitter call and each noise-buffer sample consumes one draw, in the order
  the source performs them.
- The AudioContext is modelled by a numeric identity (the construction
  counter at construction time); the host environment decides, through
  Env.ctxOk, whether constructing one succeeds.  A failing construction
  (the constructor throwing) is modelled by Except.error; the engine
  contains no exception handling, so the error is the call's result.
- An AudioBuffer is represented by its construction descriptor
  (random-stream position, frame count); its sample values are recovered
  from the descriptor by noiseSample below.
- The ephemeral signal graph scheduled by playDown / playUp is modelled as
  the list of layers the call wires up, with each layer's parameters as the
  source computes them; times are offsets from the single currentTime read.
- Profile resolution is the source's PROFILES[switchId] ?? PROFILES.red on
  a plain object literal, so the bracket lookup consults the prototype
  chain: for an Object.prototype member name (toString, valueOf, ...) it
  yields the inherited member, which is not nullish, and the fallback does
  not fire.  Such a value has no numeric fields, so jitter on its
  undefined fields yields NaN, and the first assignment of NaN to a WebIDL
  float AudioParam throws a TypeError the engine does not catch.  This is
  modelled by resolveProfile returning a non-profile marker and by the
  play operations erroring exactly where the source's first NaN write
  happens.
- A throwing call may have consumed Math.random() draws before the throw;
  the modelled cursor does not advance on error paths, which no claim can
  observe (no claim relates draws across a throwing call).
- The source also issues a fire-and-forget resume() request when the
  context reports a suspended state; that host-asynchronous interaction
  mutates no engine field and is not modelled.
-/

deriving instance DecidableEq for Except

namespace KeySound

/-- Acoustic parameter set of one switch type, as in the source interface
SwitchProfile (baseFreq, clickFreq, filterFreq, filterQ, thockDecay,
clickDecay, volume). -/
structure SwitchProfile where
  baseFreq : ℚ
  clickFreq : ℚ
  filterFreq : ℚ
  filterQ : ℚ
  thockDecay : ℚ
  clickDecay : ℚ
  volume : ℚ
  deriving DecidableEq, Repr

/-- PROFILES.red of the source. -/
def red : SwitchProfile := ⟨160, 0, 600, 1.2, 0.06, 0, 0.25⟩

/-- PROFILES.blue of the source. -/
def blue : SwitchProfile := ⟨240, 4200, 1800, 2.0, 0.08, 0.03, 0.32⟩

/-- PROFILES.brown of the source. -/
def brown : SwitchProfile := ⟨200, 2200, 1000, 1.4, 0.07, 0.015, 0.28⟩

/-- PROFILES.speed of the source. -/
def speed : SwitchProfile := ⟨280, 0, 1200, 1.0, 0.035, 0, 0.2⟩

/-- PROFILES.black of the source. -/
def black : SwitchProfile := ⟨110, 0, 400, 1.5, 0.1, 0, 0.3⟩

/-- Own-key lookup on the PROFILES object literal: some profile for its
five declared keys, none otherwise. -/
def PROFILES (id : String) : Option SwitchProfile :=
  if id = "red" then some red
  else if id = "blue" then some blue
  else if id = "brown" then some brown
  else if id = "speed" then some speed
  else if id = "black" then some black
  else none

/-- The member names of Object.prototype, inherited by the PROFILES object
literal: bracket lookup with one of these ids returns the inherited member
(a function, or an object for proto), which is not nullish. -/
def protoKeys : List String :=
  ["constructor", "hasOwnProperty", "isPrototypeOf", "propertyIsEnumerable",
    "toLocaleString", "toString", "valueOf", "__proto__", "__defineGetter__",
    "__defineSetter__", "__lookupGetter__", "__lookupSetter__"]

/-- What PROFILES[switchId] ?? PROFILES.red evaluates to: a SwitchProfile
(an own key's value, or the red fallback when the lookup was undefined),
or the inherited Object.prototype member, which the fallback does not
replace and which carries no numeric profile fields. -/
inductive LookupResult
  | profile (p : SwitchProfile)
  | protoMember
  deriving DecidableEq, Repr

/-- The source's resolution PROFILES[switchId] ?? PROFILES.red, prototype
chain included. -/
def resolveProfile (id : String) : LookupResult :=
  match PROFILES id with
  | some p => .profile p
  | none => if id ∈ protoKeys then .protoMember else .profile red

/-- The profile the play operations end up using whenever the id is not an
Object.prototype member name: the own key's profile, else the red
fallback. -/
def lookupProfile (id : String) : SwitchProfile :=
  (PROFILES id).getD red

/-- The field domains the data model states for a profile. -/
def validProfile (p : SwitchProfile) : Prop :=
  0 < p.baseFreq ∧ 0 ≤ p.clickFreq ∧ 0 < p.filterFreq ∧ 0 < p.filterQ ∧
    0 < p.thockDecay ∧ 0 ≤ p.clickDecay ∧ 0 < p.volume ∧ p.volume ≤ 1

instance (p : SwitchProfile) : Decidable (validProfile p) := by
  unfold validProfile; infer_instance

/-- The jitter utility of the source:
value * (1 + (Math.random() - 0.5) * 2 * amount), with the random draw r
made explicit.  The source's default amount is 0.04. -/
def jitter (r value amount : ℚ) : ℚ :=
  value * (1 + (r - 0.5) * 2 * amount)

/-- Oscillator wave type used by the engine. -/
inductive OscType
  | sine
  | square
  deriving DecidableEq, Repr

/-- One layer of the ephemeral signal graph a trigger call schedules.
A noiseBody layer is a buffer source (identified by its construction
descriptor) through a bandpass filter into a gain envelope; an osc layer is
an oscillator into a gain envelope.  gainStart is the setValueAtTime value
at the shared timestamp, gainEnd the exponentialRampToValueAtTime target
(the source's 0.001 floor), decay the ramp end offset, stopOff the stop()
offset. -/
inductive Layer
  | noiseBody (buf : ℕ × ℕ) (filterFreq filterQ gainStart gainEnd decay stopOff : ℚ)
  | osc (ty : OscType) (freq gainStart gainEnd decay stopOff : ℚ)
  deriving DecidableEq, Repr

/-- Whether a layer is a click layer (square-wave oscillator). -/
def Layer.isClick : Layer → Bool
  | .osc .square _ _ _ _ _ => true
  | _ => false

/-- Whether a layer is the tonal thud (sine oscillator). -/
def Layer.isThud : Layer → Bool
  | .osc .sine _ _ _ _ _ => true
  | _ => false

/-- Whether a layer is the noise-body layer (buffer source). -/
def Layer.isNoiseBody : Layer → Bool
  | .noiseBody _ _ _ _ _ _ _ => true
  | _ => false

/-- The host environment: whether AudioContext construction succeeds, the
device's native sample rate, and the Math.random() stream. -/
structure Env where
  ctxOk : Bool
  sampleRate : ℕ
  rand : ℕ → ℚ

/-- The mutable fields of KeySoundEngine (ctx, noiseBuffer) together with a
construction counter giving contexts an identity and the random-stream
cursor. -/
structure EngineState where
  ctx : Option ℕ
  noiseBuffer : Option (ℕ × ℕ)
  ctxCount : ℕ
  randPos : ℕ
  deriving DecidableEq, Repr

/-- Fresh engine: ctx = null, noiseBuffer = null. -/
def initState : EngineState := ⟨none, none, 0, 0⟩

/-- Frame count of the noise buffer.  The source passes the float
sampleRate * 0.1 as createBuffer's length argument, a WebIDL unsigned long,
which truncates the value toward zero; hence floor(sampleRate / 10). -/
def noiseBufferLen (sampleRate : ℕ) : ℕ := sampleRate / 10

/-- buildNoiseBuffer of the source: no-op without a context; otherwise
record the buffer descriptor and consume one random draw per sample. -/
def buildNoiseBuffer (env : Env) (s : EngineState) : EngineState :=
  match s.ctx with
  | none => s
  | some _ =>
    let len := noiseBufferLen env.sampleRate
    { s with noiseBuffer := some (s.randPos, len), randPos := s.randPos + len }

/-- ensureCtx of the source: reuse the context when present; otherwise
construct one (which the host may deny, modelled as an error the engine
does not catch) and immediately build the noise buffer. -/
def ensureCtx (env : Env) (s : EngineState) : Except Unit EngineState :=
  match s.ctx with
  | some _ => .ok s
  | none =>
    if env.ctxOk then
      .ok (buildNoiseBuffer env { s with ctx := some s.ctxCount, ctxCount := s.ctxCount + 1 })
    else
      .error ()

/-- Number of random draws a playDown call consumes after ensureCtx: two
jitters for the noise-body layer when the buffer exists, one for the thud,
one for the click when clickFreq > 0. -/
def downRandCount (p : SwitchProfile) (buf : Option (ℕ × ℕ)) : ℕ :=
  (if buf.isSome then 2 else 0) + 1 + (if 0 < p.clickFreq then 1 else 0)

/-- The layers playDown wires up, in source order: the noise-body layer
(only if the shared buffer exists), the tonal thud, and the click layer
(only if clickFreq > 0).  rng n is the n-th random draw the call makes. -/
def playDownLayers (p : SwitchProfile) (buf : Option (ℕ × ℕ)) (rng : ℕ → ℚ) : List Layer :=
  let noisePart : List Layer :=
    match buf with
    | some b =>
      [Layer.noiseBody b (jitter (rng 0) p.filterFreq 0.04) p.filterQ
        (jitter (rng 1) p.volume 0.04) 0.001 p.thockDecay 0.15]
    | none => []
  let k : ℕ := if buf.isSome then 2 else 0
  let thud : Layer :=
    Layer.osc .sine (jitter (rng k) p.baseFreq 0.04) (p.volume * 0.45) 0.001 0.04 0.05
  let clickPart : List Layer :=
    if 0 < p.clickFreq then
      [Layer.osc .square (jitter (rng (k + 1)) p.clickFreq 0.06) (p.volume * 0.25) 0.001
        p.clickDecay (p.clickDecay + 0.005)]
    else []
  noisePart ++ [thud] ++ clickPart

/-- playDown of the source: ensureCtx, resolve the profile, assemble and
schedule the layers; the state advances its random cursor by the draws the
call consumed.  For an Object.prototype member id the resolved value has
only undefined numeric fields, jitter yields NaN, and the first NaN write
to a WebIDL float AudioParam — the noise filter frequency, or the thud
frequency when the buffer is absent — throws a TypeError before any layer
is started; the engine does not catch it. -/
def playDown (env : Env) (id : String) (s : EngineState) :
    Except Unit (EngineState × List Layer) :=
  match ensureCtx env s with
  | .error e => .error e
  | .ok s1 =>
    match resolveProfile id with
    | .protoMember => .error ()
    | .profile p =>
      .ok ({ s1 with randPos := s1.randPos + downRandCount p s1.noiseBuffer },
        playDownLayers p s1.noiseBuffer (fun n => env.rand (s1.randPos + n)))

/-- Number of random draws a playUp call consumes after ensureCtx. -/
def upRandCount (p : SwitchProfile) (buf : Option (ℕ × ℕ)) : ℕ :=
  (if buf.isSome then 1 else 0) + (if 0 < p.clickFreq then 1 else 0)

/-- The layers playUp wires up, in source order: the lighter noise-body
layer (only if the buffer exists) and the release click (only if
clickFreq > 0); no tonal thud. -/
def playUpLayers (p : SwitchProfile) (buf : Option (ℕ × ℕ)) (rng : ℕ → ℚ) : List Layer :=
  let noisePart : List Layer :=
    match buf with
    | some b =>
      [Layer.noiseBody b (jitter (rng 0) (p.filterFreq * 1.4) 0.04) (p.filterQ * 0.8)
        (p.volume * 0.35) 0.001 (p.thockDecay * 0.6) 0.1]
    | none => []
  let k : ℕ := if buf.isSome then 1 else 0
  let clickPart : List Layer :=
    if 0 < p.clickFreq then
      [Layer.osc .square (jitter (rng k) (p.clickFreq * 0.8) 0.04) (p.volume * 0.15) 0.001
        (p.clickDecay * 0.7) (p.clickDecay * 0.7 + 0.005)]
    else []
  noisePart ++ clickPart

/-- playUp of the source.  For an Object.prototype member id: when the
noise buffer exists, the NaN filter-frequency write throws before anything
is started; when it does not, the noise branch is skipped and the click
guard (undefined > 0) is false, so the call returns normally having
scheduled nothing. -/
def playUp (env : Env) (id : String) (s : EngineState) :
    Except Unit (EngineState × List Layer) :=
  match ensureCtx env s with
  | .error e => .error e
  | .ok s1 =>
    match resolveProfile id with
    | .protoMember =>
      match s1.noiseBuffer with
      | some _ => .error ()
      | none => .ok (s1, [])
    | .profile p =>
      .ok ({ s1 with randPos := s1.randPos + upRandCount p s1.noiseBuffer },
        playUpLayers p s1.noiseBuffer (fun n => env.rand (s1.randPos + n)))

/-- A call to one of the two public trigger operations. -/
inductive Call
  | down (id : String)
  | up (id : String)

/-- One public-API call. -/
def step (env : Env) (c : Call) (s : EngineState) :
    Except Unit (EngineState × List Layer) :=
  match c with
  | .down id => playDown env id s
  | .up id => playUp env id s

/-- Run a sequence of calls, threading the engine state.  A call whose
context construction the host denied throws before mutating any field, so
the state is unchanged at that call. -/
def runState (env : Env) (s : EngineState) : List Call → EngineState
  | [] => s
  | c :: cs =>
    match step env c s with
    | .ok (s1, _) => runState env s1 cs
    | .error _ => runState env s cs

/-- Layers scheduled by a call result (none when the call threw). -/
def layersOf : Except Unit (EngineState × List Layer) → List Layer
  | .ok (_, ls) => ls
  | .error _ => []

/-- Whether a call result is a normal return. -/
def returnsNormally : Except Unit (EngineState × List Layer) → Bool
  | .ok _ => true
  | .error _ => false

/-- The exponential decay envelope the noise-buffer factory bakes in:
exp(-i / (len * 0.25)) where len is the source's float sampleRate * 0.1. -/
noncomputable def envelope (sampleRate : ℕ) (i : ℕ) : ℝ :=
  Real.exp (-(i : ℝ) / ((sampleRate : ℝ) * 0.1 * 0.25))

/-- Sample i of a noise buffer whose descriptor starts at stream position
pos: (Math.random() * 2 - 1) * envelope. -/
noncomputable def noiseSample (env : Env) (pos i : ℕ) : ℝ :=
  ((env.rand (pos + i) : ℝ) * 2 - 1) * envelope env.sampleRate i

/-- The sample-for-sample content of the engine's noise buffer, recovered
from its descriptor. -/
noncomputable def bufferSamplesOf (env : Env) (s : EngineState) : Option (List ℝ) :=
  s.noiseBuffer.map (fun d => (List.range d.2).map (fun i => noiseSample env d.1 i))

/-- A healthy host: construction allowed, 44100 Hz, constant random
stream at one half (which makes every jitter the identity). -/
def env1 : Env := ⟨true, 44100, fun _ => 0.5⟩

/-- A host that denies AudioContext construction. -/
def envDenied : Env := ⟨false, 44100, fun _ => 0.5⟩

/-- The engine state after playDown env1 red from a fresh engine. -/
def sAfterDownRed : EngineState := ⟨some 0, some (0, 4410), 1, 4413⟩

/-- The layers that call schedules. -/
def layersDownRed : List Layer :=
  [Layer.noiseBody (0, 4410) 600 1.2 0.25 0.001 0.06 0.15,
    Layer.osc .sine 160 0.1125 0.001 0.04 0.05]

/-- A state whose context exists but whose buffer is missing (not reachable
through the engine's own operations; used to exercise the skip branch). -/
def stNoBuf : EngineState := ⟨some 0, none, 1, 0⟩

/-- The invariant relating the two nullable fields: a non-null context
implies a non-null noise buffer. -/
def BufInv (s : EngineState) : Prop :=
  s.ctx.isSome = true → s.noiseBuffer.isSome = true

instance (s : EngineState) : Decidable (BufInv s) := by
  unfold BufInv; infer_instance

/- ——— Helper lemmas ——— -/

lemma lookup_red : lookupProfile ("red") = red := rfl

lemma lookup_blue : lookupProfile ("blue") = blue := rfl

lemma lookup_speed : lookupProfile ("speed") = speed := rfl

lemma resolveProfile_of_not_proto (id : String) (hid : id ∉ protoKeys) :
    resolveProfile id = .profile (lookupProfile id) := by
  unfold resolveProfile lookupProfile
  cases hp : PROFILES id with
  | some p => rfl
  | none => simp [hid]

lemma PROFILES_proto_none (id : String) (hid : id ∈ protoKeys) : PROFILES id = none := by
  fin_cases hid <;> rfl

lemma resolveProfile_of_proto (id : String) (hid : id ∈ protoKeys) :
    resolveProfile id = .protoMember := by
  unfold resolveProfile
  rw [PROFILES_proto_none id hid]
  simp [hid]

lemma ensureCtx_of_some (env : Env) (s : EngineState) (c : ℕ) (hctx : s.ctx = some c) :
    ensureCtx env s = .ok s := by
  simp [ensureCtx, hctx]

lemma ensureCtx_of_none (env : Env) (s : EngineState) (hc : s.ctx = none)
    (he : env.ctxOk = true) :
    ensureCtx env s = .ok { s with
      ctx := some s.ctxCount
      ctxCount := s.ctxCount + 1
      noiseBuffer := some (s.randPos, noiseBufferLen env.sampleRate)
      randPos := s.randPos + noiseBufferLen env.sampleRate } := by
  simp [ensureCtx, hc, he, buildNoiseBuffer]

lemma ensureCtx_ok_cases (env : Env) (s s2 : EngineState) (h : ensureCtx env s = .ok s2) :
    (s.ctx.isSome = true ∧ s2 = s) ∨
      (s.ctx = none ∧ env.ctxOk = true ∧
        s2 = { s with
          ctx := some s.ctxCount
          ctxCount := s.ctxCount + 1
          noiseBuffer := some (s.randPos, noiseBufferLen env.sampleRate)
          randPos := s.randPos + noiseBufferLen env.sampleRate }) := by
  cases hc : s.ctx with
  | some c =>
    left
    rw [ensureCtx_of_some env s c hc] at h
    exact ⟨by simp [hc], (Except.ok.inj h).symm⟩
  | none =>
    cases he : env.ctxOk with
    | true =>
      right
      rw [ensureCtx_of_none env s hc he] at h
      exact ⟨rfl, rfl, (Except.ok.inj h).symm⟩
    | false => simp [ensureCtx, hc, he] at h

lemma playDown_ok_shape (env : Env) (id : String) (s s1 : EngineState) (ls : List Layer)
    (h : playDown env id s = .ok (s1, ls)) :
    ∃ s2 p, ensureCtx env s = .ok s2 ∧ resolveProfile id = .profile p ∧
      s1 = { s2 with randPos := s2.randPos + downRandCount p s2.noiseBuffer } ∧
      ls = playDownLayers p s2.noiseBuffer (fun n => env.rand (s2.randPos + n)) := by
  cases he : ensureCtx env s with
  | error e => simp [playDown, he] at h
  | ok s2 =>
    cases hr : resolveProfile id with
    | protoMember => simp [playDown, he, hr] at h
    | profile p =>
      simp [playDown, he, hr] at h
      exact ⟨s2, p, rfl, rfl, h.1.symm, h.2.symm⟩

lemma playUp_ok_shape (env : Env) (id : String) (s s1 : EngineState) (ls : List Layer)
    (h : playUp env id s = .ok (s1, ls)) :
    ∃ s2, ensureCtx env s = .ok s2 ∧
      ((∃ p, resolveProfile id = .profile p ∧
          s1 = { s2 with randPos := s2.randPos + upRandCount p s2.noiseBuffer } ∧
          ls = playUpLayers p s2.noiseBuffer (fun n => env.rand (s2.randPos + n))) ∨
        (resolveProfile id = .protoMember ∧ s2.noiseBuffer = none ∧ s1 = s2 ∧ ls = [])) := by
  cases he : ensureCtx env s with
  | error e => simp [playUp, he] at h
  | ok s2 =>
    cases hr : resolveProfile id with
    | protoMember =>
      cases hb : s2.noiseBuffer with
      | some b => simp [playUp, he, hr, hb] at h
      | none =>
        simp [playUp, he, hr, hb] at h
        exact ⟨s2, rfl, Or.inr ⟨rfl, hb, h.1.symm, h.2⟩⟩
    | profile p =>
      simp [playUp, he, hr] at h
      exact ⟨s2, rfl, Or.inl ⟨p, rfl, h.1.symm, h.2.symm⟩⟩

lemma step_ok_shape (env : Env) (c : Call) (s s1 : EngineState) (ls : List Layer)
    (h : step env c s = .ok (s1, ls)) :
    ∃ s2 n, ensureCtx env s = .ok s2 ∧ s1 = { s2 with randPos := s2.randPos + n } := by
  cases c with
  | down id =>
    obtain ⟨s2, p, he, _, hs, _⟩ := playDown_ok_shape env id s s1 ls h
    exact ⟨s2, _, he, hs⟩
  | up id =>
    obtain ⟨s2, he, hcase⟩ := playUp_ok_shape env id s s1 ls h
    rcases hcase with ⟨p, _, hs, _⟩ | ⟨_, _, hs, _⟩
    · exact ⟨s2, _, he, hs⟩
    · refine ⟨s2, 0, he, ?_⟩
      rw [hs]
      rfl

lemma playDownLayers_click_iff (p : SwitchProfile) (buf : Option (ℕ × ℕ)) (rng : ℕ → ℚ) :
    ((playDownLayers p buf rng).any Layer.isClick = true ↔ 0 < p.clickFreq) := by
  by_cases hc : 0 < p.clickFreq <;> cases buf <;>
    simp [playDownLayers, Layer.isClick, hc]

lemma playDownLayers_click_mem (p : SwitchProfile) (buf : Option (ℕ × ℕ)) (rng : ℕ → ℚ)
    (hc : 0 < p.clickFreq) :
    Layer.osc .square (jitter (rng (if buf.isSome then 3 else 1)) p.clickFreq 0.06)
        (p.volume * 0.25) 0.001 p.clickDecay (p.clickDecay + 0.005) ∈
      playDownLayers p buf rng := by
  cases buf <;> simp [playDownLayers, hc]

lemma playDownLayers_thud_any (p : SwitchProfile) (buf : Option (ℕ × ℕ)) (rng : ℕ → ℚ) :
    (playDownLayers p buf rng).any Layer.isThud = true := by
  by_cases hc : 0 < p.clickFreq <;> cases buf <;>
    simp [playDownLayers, Layer.isThud, hc]

lemma playDownLayers_noise_any (p : SwitchProfile) (buf : Option (ℕ × ℕ)) (rng : ℕ → ℚ)
    (hb : buf.isSome = true) :
    (playDownLayers p buf rng).any Layer.isNoiseBody = true := by
  obtain ⟨b, rfl⟩ := Option.isSome_iff_exists.mp hb
  simp [playDownLayers, Layer.isNoiseBody]

lemma playDownLayers_noise_none (p : SwitchProfile) (rng : ℕ → ℚ) :
    (playDownLayers p none rng).any Layer.isNoiseBody = false := by
  by_cases hc : 0 < p.clickFreq <;>
    simp [playDownLayers, Layer.isNoiseBody, hc]

lemma playUpLayers_click_iff (p : SwitchProfile) (buf : Option (ℕ × ℕ)) (rng : ℕ → ℚ) :
    ((playUpLayers p buf rng).any Layer.isClick = true ↔ 0 < p.clickFreq) := by
  by_cases hc : 0 < p.clickFreq <;> cases buf <;>
    simp [playUpLayers, Layer.isClick, hc]

lemma playUpLayers_click_mem (p : SwitchProfile) (buf : Option (ℕ × ℕ)) (rng : ℕ → ℚ)
    (hc : 0 < p.clickFreq) :
    Layer.osc .square (jitter (rng (if buf.isSome then 1 else 0)) (p.clickFreq * 0.8) 0.04)
        (p.volume * 0.15) 0.001 (p.clickDecay * 0.7) (p.clickDecay * 0.7 + 0.005) ∈
      playUpLayers p buf rng := by
  cases buf <;> simp [playUpLayers, hc]

lemma playUpLayers_noise_mem (p : SwitchProfile) (b : ℕ × ℕ) (rng : ℕ → ℚ) :
    Layer.noiseBody b (jitter (rng 0) (p.filterFreq * 1.4) 0.04) (p.filterQ * 0.8)
        (p.volume * 0.35) 0.001 (p.thockDecay * 0.6) 0.1 ∈ playUpLayers p (some b) rng := by
  simp [playUpLayers]

lemma playUpLayers_noise_any (p : SwitchProfile) (buf : Option (ℕ × ℕ)) (rng : ℕ → ℚ)
    (hb : buf.isSome = true) :
    (playUpLayers p buf rng).any Layer.isNoiseBody = true := by
  obtain ⟨b, rfl⟩ := Option.isSome_iff_exists.mp hb
  simp [playUpLayers, Layer.isNoiseBody]

/- ——— Claim theorems ——— -/

/-- C1 counterexample: when the host denies construction of the rendering
context and none exists yet, playDown and playUp propagate the construction
error to the caller instead of absorbing it; the engine contains no
exception handling. -/
theorem play_propagates_ctx_denial :
    playDown envDenied ("red") initState = .error () ∧
      playUp envDenied ("red") initState = .error () := by
  constructor <;> rfl

/-- C1 amended: playDown and playUp return normally whenever a context
already exists or the host permits constructing one, provided the
switchId is not an Object.prototype member name; the engine catches
nothing, so a denied construction propagates, and so does the TypeError
a prototype-member id's NaN AudioParam write raises. -/
theorem play_ok_when_ctx_available (env : Env) (id : String) (s : EngineState)
    (h : s.ctx.isSome = true ∨ env.ctxOk = true) (hid : id ∉ protoKeys) :
    returnsNormally (playDown env id s) = true ∧
      returnsNormally (playUp env id s) = true := by
  have hres : resolveProfile id = .profile (lookupProfile id) :=
    resolveProfile_of_not_proto id hid
  have hok : ∃ s2, ensureCtx env s = .ok s2 := by
    cases hc : s.ctx with
    | some c => exact ⟨s, ensureCtx_of_some env s c hc⟩
    | none =>
      rcases h with h | h
      · rw [hc] at h; simp at h
      · exact ⟨_, ensureCtx_of_none env s hc h⟩
  obtain ⟨s2, hs2⟩ := hok
  constructor <;> simp [playDown, playUp, hs2, hres, returnsNormally]

/-- C1 witness: a healthy host, a fresh engine and the red id. -/
theorem play_ok_when_ctx_available_witness :
    returnsNormally (playDown env1 ("red") initState) = true ∧
      returnsNormally (playUp env1 ("red") initState) = true :=
  play_ok_when_ctx_available env1 ("red") initState (Or.inr rfl) (by decide)

/-- C2 counterexample: lookup is not total in the source: for the
Object.prototype member name toString the bracket lookup returns the
inherited non-nullish member, the nullish-coalescing fallback does not
fire, and neither a valid profile nor the red default is returned. -/
theorem lookup_proto_member_cex :
    resolveProfile ("toString") = LookupResult.protoMember ∧
      LookupResult.protoMember ≠ LookupResult.profile red := by
  refine ⟨rfl, fun h => ?_⟩
  cases h

/-- C2 amended: for every switchId that is not an Object.prototype member
name, lookup is total: it yields a profile satisfying all the data
model's field domains, and every unrecognized such id (including the
empty string) falls back to the default red profile; for the prototype
member names the lookup instead returns the inherited non-profile member
and does not fall back. -/
theorem lookup_valid_default_amended (id : String) :
    (id ∉ protoKeys →
      validProfile (lookupProfile id) ∧
        resolveProfile id = .profile (lookupProfile id) ∧
        (id ∉ (["red", "blue", "brown", "speed", "black"] : List String) →
          lookupProfile id = red)) ∧
      (id ∈ protoKeys → resolveProfile id = .protoMember) := by
  refine ⟨fun hid => ⟨?_, resolveProfile_of_not_proto id hid, ?_⟩,
    fun hp => resolveProfile_of_proto id hp⟩
  · unfold lookupProfile PROFILES
    split_ifs <;> norm_num [validProfile, red, blue, brown, speed, black]
  · intro hm
    have h1 : ¬(id = "red") := fun h => hm (by simp [h])
    have h2 : ¬(id = "blue") := fun h => hm (by simp [h])
    have h3 : ¬(id = "brown") := fun h => hm (by simp [h])
    have h4 : ¬(id = "speed") := fun h => hm (by simp [h])
    have h5 : ¬(id = "black") := fun h => hm (by simp [h])
    simp [lookupProfile, PROFILES, h1, h2, h3, h4, h5]

/-- C2 witness: the empty string resolves to the valid red default, while
toString hits the prototype member. -/
theorem lookup_valid_default_amended_witness :
    (validProfile (lookupProfile ("")) ∧
        resolveProfile ("") = .profile (lookupProfile ("")) ∧
        lookupProfile ("") = red) ∧
      resolveProfile ("toString") = .protoMember :=
  ⟨⟨((lookup_valid_default_amended ("")).1 (by decide)).1,
      ((lookup_valid_default_amended ("")).1 (by decide)).2.1,
      ((lookup_valid_default_amended ("")).1 (by decide)).2.2 (by decide)⟩,
    (lookup_valid_default_amended ("toString")).2 (by decide)⟩

/-- C3: jitter with amount 0 returns the value exactly; with positive
amount it equals value * (1 + u * 2 * amount) for the draw u = r - 0.5, and
for a draw r in [0,1) and nonnegative value it lies in
[value * (1 - amount), value * (1 + amount)]. -/
theorem jitter_exact_and_bounded (v r : ℚ) :
    jitter r v 0 = v ∧
      ∀ a : ℚ, 0 < a →
        jitter r v a = v * (1 + (r - 0.5) * 2 * a) ∧
          (0 ≤ r → r < 1 → 0 ≤ v →
            v * (1 - a) ≤ jitter r v a ∧ jitter r v a ≤ v * (1 + a)) := by
  refine ⟨by unfold jitter; ring, fun a ha => ⟨rfl, fun hr0 hr1 hv => ⟨?_, ?_⟩⟩⟩
  · unfold jitter
    nlinarith [mul_nonneg (mul_nonneg hv ha.le) hr0]
  · unfold jitter
    nlinarith [mul_nonneg (mul_nonneg hv ha.le) (by linarith : (0 : ℚ) ≤ 1 - r)]

/-- C3 witness at value 2, draw 0.75, amount 0.1. -/
theorem jitter_exact_and_bounded_witness :
    jitter 0.75 2 0 = 2 ∧
      jitter 0.75 2 0.1 = 2 * (1 + (0.75 - 0.5) * 2 * 0.1) ∧
      2 * (1 - 0.1) ≤ jitter 0.75 2 0.1 ∧ jitter 0.75 2 0.1 ≤ 2 * (1 + 0.1) := by
  have h := jitter_exact_and_bounded 2 0.75
  have h2 := h.2 0.1 (by norm_num)
  have h3 := h2.2 (by norm_num) (by norm_num) (by norm_num)
  exact ⟨h.1, h2.1, h3.1, h3.2⟩

lemma step_fields_of_ctx_some (env : Env) (c : Call) (s s1 : EngineState) (ls : List Layer)
    (c0 : ℕ) (hctx : s.ctx = some c0) (h : step env c s = .ok (s1, ls)) :
    s1.ctx = s.ctx ∧ s1.noiseBuffer = s.noiseBuffer ∧ s1.ctxCount = s.ctxCount := by
  obtain ⟨s2, n, he, hs⟩ := step_ok_shape env c s s1 ls h
  rcases ensureCtx_ok_cases env s s2 he with ⟨_, rfl⟩ | ⟨hnone, _, _⟩
  · subst hs
    exact ⟨rfl, rfl, rfl⟩
  · rw [hctx] at hnone
    cases hnone

lemma runState_fields (env : Env) (cs : List Call) :
    ∀ (s : EngineState) (c0 : ℕ), s.ctx = some c0 →
      (runState env s cs).ctx = s.ctx ∧ (runState env s cs).noiseBuffer = s.noiseBuffer ∧
        (runState env s cs).ctxCount = s.ctxCount := by
  induction cs with
  | nil => exact fun s c0 _ => ⟨rfl, rfl, rfl⟩
  | cons c cs ih =>
    intro s c0 hctx
    cases hstep : step env c s with
    | ok p =>
      obtain ⟨s1, ls⟩ := p
      have hf := step_fields_of_ctx_some env c s s1 ls c0 hctx hstep
      have hrec := ih s1 c0 (by rw [hf.1, hctx])
      simp only [runState, hstep]
      exact ⟨hrec.1.trans hf.1, (hrec.2.1).trans hf.2.1, (hrec.2.2).trans hf.2.2⟩
    | error e =>
      simp only [runState, hstep]
      exact ih s c0 hctx

lemma first_step_fields (env : Env) (c : Call) (s1 : EngineState) (ls : List Layer)
    (henv : env.ctxOk = true) (h : step env c initState = .ok (s1, ls)) :
    s1.ctx = some 0 ∧ s1.noiseBuffer = some (0, noiseBufferLen env.sampleRate) ∧
      s1.ctxCount = 1 := by
  obtain ⟨s2, n, he, hs⟩ := step_ok_shape env c initState s1 ls h
  rcases ensureCtx_ok_cases env initState s2 he with ⟨hsome, _⟩ | ⟨_, _, hs2⟩
  · simp [initState] at hsome
  · subst hs2
    subst hs
    exact ⟨rfl, rfl, rfl⟩

lemma ensureCtx_ok_buf_of_inv (env : Env) (s s2 : EngineState) (hinv : BufInv s)
    (he : ensureCtx env s = .ok s2) : s2.noiseBuffer.isSome = true := by
  rcases ensureCtx_ok_cases env s s2 he with ⟨hsome, rfl⟩ | ⟨_, _, hs2⟩
  · exact hinv hsome
  · rw [hs2]
    rfl

lemma step_ok_inv (env : Env) (c : Call) (s s1 : EngineState) (ls : List Layer)
    (hinv : BufInv s) (h : step env c s = .ok (s1, ls)) :
    BufInv s1 ∧ ls.any Layer.isNoiseBody = true := by
  cases c with
  | down id =>
    obtain ⟨s2, p, he, _, hs, hl⟩ := playDown_ok_shape env id s s1 ls h
    have hb := ensureCtx_ok_buf_of_inv env s s2 hinv he
    subst hs
    exact ⟨fun _ => hb, by rw [hl]; exact playDownLayers_noise_any _ _ _ hb⟩
  | up id =>
    obtain ⟨s2, he, hcase⟩ := playUp_ok_shape env id s s1 ls h
    have hb := ensureCtx_ok_buf_of_inv env s s2 hinv he
    rcases hcase with ⟨p, _, hs, hl⟩ | ⟨_, hnone, _, _⟩
    · subst hs
      exact ⟨fun _ => hb, by rw [hl]; exact playUpLayers_noise_any _ _ _ hb⟩
    · rw [hnone] at hb
      simp at hb

lemma runState_inv (env : Env) (cs : List Call) :
    ∀ s : EngineState, BufInv s → BufInv (runState env s cs) := by
  induction cs with
  | nil => exact fun s h => h
  | cons c cs ih =>
    intro s h
    cases hstep : step env c s with
    | ok p =>
      obtain ⟨s1, ls⟩ := p
      simp only [runState, hstep]
      exact ih s1 (step_ok_inv env c s s1 ls h hstep).1
    | error e =>
      simp only [runState, hstep]
      exact ih s h

/-- C4: with a host that permits construction, the first trigger call
constructs the context (identity 0) and the noise buffer, and any sequence
of further calls leaves the context, the buffer descriptor and hence the
buffer's sample-for-sample content unchanged, with the construction count
staying at one. -/
theorem construct_once_reuse (env : Env) (c : Call) (cs : List Call) (s1 : EngineState)
    (ls : List Layer) (henv : env.ctxOk = true) (h : step env c initState = .ok (s1, ls)) :
    (s1.ctx = some 0 ∧ s1.noiseBuffer = some (0, noiseBufferLen env.sampleRate) ∧
        s1.ctxCount = 1) ∧
      ((runState env s1 cs).ctx = s1.ctx ∧
        (runState env s1 cs).noiseBuffer = s1.noiseBuffer ∧
        (runState env s1 cs).ctxCount = 1) ∧
      bufferSamplesOf env (runState env s1 cs) = bufferSamplesOf env s1 := by
  have hfirst := first_step_fields env c s1 ls henv h
  have hrun := runState_fields env cs s1 0 hfirst.1
  refine ⟨hfirst, ⟨hrun.1, hrun.2.1, hrun.2.2.trans hfirst.2.2⟩, ?_⟩
  unfold bufferSamplesOf
  rw [hrun.2.1]

/-- C4 witness: a key-down then a key-up on a healthy host. -/
theorem construct_once_reuse_witness :
    (sAfterDownRed.ctx = some 0 ∧
        sAfterDownRed.noiseBuffer = some (0, noiseBufferLen env1.sampleRate) ∧
        sAfterDownRed.ctxCount = 1) ∧
      ((runState env1 sAfterDownRed [Call.up ("blue")]).ctx = sAfterDownRed.ctx ∧
        (runState env1 sAfterDownRed [Call.up ("blue")]).noiseBuffer =
          sAfterDownRed.noiseBuffer ∧
        (runState env1 sAfterDownRed [Call.up ("blue")]).ctxCount = 1) ∧
      bufferSamplesOf env1 (runState env1 sAfterDownRed [Call.up ("blue")]) =
        bufferSamplesOf env1 sAfterDownRed :=
  construct_once_reuse env1 (Call.down ("red")) [Call.up ("blue")] sAfterDownRed layersDownRed
    rfl (by norm_num [step, playDown, ensureCtx, initState, buildNoiseBuffer, noiseBufferLen,
      env1, playDownLayers, jitter, downRandCount, resolveProfile, lookupProfile, PROFILES,
      protoKeys, sAfterDownRed,
      layersDownRed, red])

/-- C5 counterexample: at the standard 11025 Hz sample rate the buffer
holds 1102 frames, the truncation of 1102.5, while round(11025 * 0.1) is
1103; moreover the decay envelope divides by the un-truncated length
1102.5 (11025 * 0.1), not by the frame count 1102. -/
theorem noise_len_round_cex :
    noiseBufferLen 11025 = 1102 ∧ round ((11025 : ℚ) * 0.1) = 1103 ∧
      envelope 11025 1 ≠ Real.exp (-(1 : ℝ) / ((1102 : ℝ) * 0.25)) := by
  refine ⟨rfl, by norm_num [round_eq], ?_⟩
  have hlt : Real.exp (-(1 : ℝ) / ((1102 : ℝ) * 0.25)) < envelope 11025 1 := by
    unfold envelope
    apply Real.exp_lt_exp.mpr
    norm_num
  exact (ne_of_lt hlt).symm

/-- C5 amended: the factory records a buffer of floor(sampleRate * 0.1)
frames (equal to round at every rate divisible by 10); each sample is a
uniform draw in [-1, 1) times exp(-i / (L * 0.25)) with L the un-truncated
sampleRate * 0.1, so every sample magnitude is at most 1, the envelope at
index 0 is exactly 1, and the envelope is strictly decreasing in the
index. -/
theorem noise_buffer_amended (env : Env) (s : EngineState) (c : ℕ) (hctx : s.ctx = some c)
    (hsr : 0 < env.sampleRate) (hrand : ∀ n, 0 ≤ env.rand n ∧ env.rand n < 1) :
    (buildNoiseBuffer env s).noiseBuffer =
        some (s.randPos, noiseBufferLen env.sampleRate) ∧
      noiseBufferLen env.sampleRate = ⌊(env.sampleRate : ℚ) / 10⌋₊ ∧
      (∀ i, |noiseSample env s.randPos i| ≤ 1) ∧
      envelope env.sampleRate 0 = 1 ∧
      (∀ i j : ℕ, i < j → envelope env.sampleRate j < envelope env.sampleRate i) := by
  have hsrR : (0 : ℝ) < (env.sampleRate : ℝ) := by exact_mod_cast hsr
  have hcpos : (0 : ℝ) < (env.sampleRate : ℝ) * 0.1 * 0.25 := by
    have h1 : (0 : ℝ) < (env.sampleRate : ℝ) * 0.1 := mul_pos hsrR (by norm_num)
    exact mul_pos h1 (by norm_num)
  refine ⟨by simp [buildNoiseBuffer, hctx], ?_, ?_, ?_, ?_⟩
  · unfold noiseBufferLen
    rw [Nat.floor_div_ofNat, Nat.floor_natCast]
  · intro i
    unfold noiseSample
    rw [abs_mul]
    have h1 : |(env.rand (s.randPos + i) : ℝ) * 2 - 1| ≤ 1 := by
      have h0 : (0 : ℝ) ≤ (env.rand (s.randPos + i) : ℝ) := by
        exact_mod_cast (hrand (s.randPos + i)).1
      have h2 : ((env.rand (s.randPos + i) : ℝ)) < 1 := by
        exact_mod_cast (hrand (s.randPos + i)).2
      rw [abs_le]
      constructor <;> nlinarith
    have h2 : |envelope env.sampleRate i| ≤ 1 := by
      unfold envelope
      rw [abs_of_pos (Real.exp_pos _)]
      apply Real.exp_le_one_iff.mpr
      apply div_nonpos_of_nonpos_of_nonneg
      · exact neg_nonpos.mpr (Nat.cast_nonneg i)
      · positivity
    exact mul_le_one₀ h1 (abs_nonneg _) h2
  · unfold envelope
    simp
  · intro i j hij
    unfold envelope
    apply Real.exp_lt_exp.mpr
    apply (div_lt_div_iff_of_pos_right hcpos).mpr
    exact neg_lt_neg (by exact_mod_cast hij)

/-- C5 witness: the factory at 44100 Hz with the constant one-half random
stream, checked at a few concrete indices. -/
theorem noise_buffer_amended_witness :
    (buildNoiseBuffer env1 stNoBuf).noiseBuffer = some (0, noiseBufferLen 44100) ∧
      noiseBufferLen 44100 = ⌊((44100 : ℕ) : ℚ) / 10⌋₊ ∧
      |noiseSample env1 0 7| ≤ 1 ∧ envelope 44100 0 = 1 ∧
      envelope 44100 2 < envelope 44100 1 := by
  have h := noise_buffer_amended env1 stNoBuf 0 rfl (by norm_num [env1])
    (fun n => ⟨by norm_num [env1], by norm_num [env1]⟩)
  exact ⟨h.1, h.2.1, h.2.2.1 7, h.2.2.2.1, h.2.2.2.2 1 2 (by norm_num)⟩

/-- C6: playDown schedules a click layer exactly when the resolved
profile's clickFrequency is positive — blue does, red does not — and that
layer is the square-wave oscillator at jitter(clickFreq, 0.06), gain
masterVolume * 0.25, exponential ramp to the 0.001 floor over clickDecay
seconds, stopped 0.005 s after the ramp ends. -/
theorem playDown_click_iff_profile (id : String) (buf : Option (ℕ × ℕ)) (rng : ℕ → ℚ) :
    ((playDownLayers (lookupProfile id) buf rng).any Layer.isClick = true ↔
        0 < (lookupProfile id).clickFreq) ∧
      (0 < (lookupProfile id).clickFreq →
        Layer.osc .square
            (jitter (rng (if buf.isSome then 3 else 1)) (lookupProfile id).clickFreq 0.06)
            ((lookupProfile id).volume * 0.25) 0.001 (lookupProfile id).clickDecay
            ((lookupProfile id).clickDecay + 0.005) ∈
          playDownLayers (lookupProfile id) buf rng) ∧
      (playDownLayers (lookupProfile ("blue")) buf rng).any Layer.isClick = true ∧
      (playDownLayers (lookupProfile ("red")) buf rng).any Layer.isClick = false := by
  refine ⟨playDownLayers_click_iff _ _ _, playDownLayers_click_mem _ _ _, ?_, ?_⟩
  · rw [lookup_blue]
    exact (playDownLayers_click_iff blue buf rng).mpr (by norm_num [blue])
  · rw [lookup_red]
    cases hany : (playDownLayers red buf rng).any Layer.isClick with
    | false => rfl
    | true => exact absurd ((playDownLayers_click_iff red buf rng).mp hany) (by norm_num [red])

/-- C6 witness: a blue key-down before the buffer exists. -/
theorem playDown_click_iff_profile_witness :
    (playDownLayers (lookupProfile ("blue")) none (fun _ => 0.5)).any Layer.isClick = true ∧
      Layer.osc .square (jitter 0.5 (lookupProfile ("blue")).clickFreq 0.06)
          ((lookupProfile ("blue")).volume * 0.25) 0.001 (lookupProfile ("blue")).clickDecay
          ((lookupProfile ("blue")).clickDecay + 0.005) ∈
        playDownLayers (lookupProfile ("blue")) none (fun _ => 0.5) := by
  have h := playDown_click_iff_profile ("blue") none (fun _ => 0.5)
  exact ⟨h.2.2.1, h.2.1 (by rw [lookup_blue]; norm_num [blue])⟩

/-- C7 counterexample: on a blue release with random draw 0 the click layer
has frequency 3225.6 while clickFrequency * 0.8 = 3360: the source applies
the default jitter to the release click frequency, so the claimed equality
fails. -/
theorem playUp_click_freq_cex :
    playUpLayers (lookupProfile ("blue")) none (fun _ => 0) =
        [Layer.osc .square 3225.6 0.048 0.001 0.021 0.026] ∧
      (3225.6 : ℚ) ≠ (lookupProfile ("blue")).clickFreq * 0.8 := by
  constructor
  · rw [lookup_blue]
    norm_num [playUpLayers, jitter, blue]
  · rw [lookup_blue]
    norm_num [blue]

/-- C7 amended: playUp derives its parameters from the resolved profile as
filter center filterFreq * 1.4 then jittered, resonance filterQ * 0.8,
un-jittered gain masterVolume * 0.35, decay bodyDecay * 0.6; the click
layer exists iff clickFrequency > 0 and has frequency jitter(clickFreq *
0.8) with the default 4 percent amount, gain masterVolume * 0.15 and decay
clickDecay * 0.7; speed has no click layer, pre-jitter filter center 1680
Hz and decay 0.021 s. -/
theorem playUp_params_amended (id : String) (buf : Option (ℕ × ℕ)) (rng : ℕ → ℚ) :
    (∀ b, buf = some b →
        Layer.noiseBody b (jitter (rng 0) ((lookupProfile id).filterFreq * 1.4) 0.04)
            ((lookupProfile id).filterQ * 0.8) ((lookupProfile id).volume * 0.35) 0.001
            ((lookupProfile id).thockDecay * 0.6) 0.1 ∈
          playUpLayers (lookupProfile id) buf rng) ∧
      ((playUpLayers (lookupProfile id) buf rng).any Layer.isClick = true ↔
        0 < (lookupProfile id).clickFreq) ∧
      (0 < (lookupProfile id).clickFreq →
        Layer.osc .square
            (jitter (rng (if buf.isSome then 1 else 0))
              ((lookupProfile id).clickFreq * 0.8) 0.04)
            ((lookupProfile id).volume * 0.15) 0.001 ((lookupProfile id).clickDecay * 0.7)
            ((lookupProfile id).clickDecay * 0.7 + 0.005) ∈
          playUpLayers (lookupProfile id) buf rng) ∧
      (playUpLayers (lookupProfile ("speed")) buf rng).any Layer.isClick = false ∧
      (lookupProfile ("speed")).filterFreq * 1.4 = 1680 ∧
      (lookupProfile ("speed")).thockDecay * 0.6 = 0.021 := by
  refine ⟨?_, playUpLayers_click_iff _ _ _, playUpLayers_click_mem _ _ _, ?_, ?_, ?_⟩
  · intro b hb
    subst hb
    exact playUpLayers_noise_mem _ _ _
  · rw [lookup_speed]
    cases hany : (playUpLayers speed buf rng).any Layer.isClick with
    | false => rfl
    | true => exact absurd ((playUpLayers_click_iff speed buf rng).mp hany) (by norm_num [speed])
  · rw [lookup_speed]
    norm_num [speed]
  · rw [lookup_speed]
    norm_num [speed]

/-- C7 witness: a blue release with the buffer present. -/
theorem playUp_params_amended_witness :
    Layer.noiseBody (0, 4410) (jitter 0.5 ((lookupProfile ("blue")).filterFreq * 1.4) 0.04)
        ((lookupProfile ("blue")).filterQ * 0.8) ((lookupProfile ("blue")).volume * 0.35) 0.001
        ((lookupProfile ("blue")).thockDecay * 0.6) 0.1 ∈
      playUpLayers (lookupProfile ("blue")) (some (0, 4410)) (fun _ => 0.5) ∧
    Layer.osc .square (jitter 0.5 ((lookupProfile ("blue")).clickFreq * 0.8) 0.04)
        ((lookupProfile ("blue")).volume * 0.15) 0.001 ((lookupProfile ("blue")).clickDecay * 0.7)
        ((lookupProfile ("blue")).clickDecay * 0.7 + 0.005) ∈
      playUpLayers (lookupProfile ("blue")) (some (0, 4410)) (fun _ => 0.5) := by
  have h := playUp_params_amended ("blue") (some (0, 4410)) (fun _ => 0.5)
  exact ⟨h.1 (0, 4410) rfl, h.2.2.1 (by rw [lookup_blue]; norm_num [blue])⟩

/-- C8: playUp never schedules a sine-oscillator (tonal-thud) layer, for
any switchId, buffer state and random draws; playDown always schedules
one, so the thud is exclusive to the down-stroke. -/
theorem playUp_never_thud (id : String) (buf : Option (ℕ × ℕ)) (rng : ℕ → ℚ) :
    (playUpLayers (lookupProfile id) buf rng).any Layer.isThud = false ∧
      (playDownLayers (lookupProfile id) buf rng).any Layer.isThud = true := by
  constructor
  · by_cases hc : 0 < (lookupProfile id).clickFreq <;> cases buf <;>
      simp [playUpLayers, Layer.isThud, hc]
  · exact playDownLayers_thud_any _ _ _

/-- C9 counterexample: a fresh engine has no noise buffer when playDown is
called, yet the call builds the buffer synchronously inside ensureCtx and
does schedule the noise-body layer instead of skipping it. -/
theorem first_call_noise_not_skipped_cex :
    initState.noiseBuffer = none ∧
      (layersOf (playDown env1 ("red") initState)).any Layer.isNoiseBody = true := by
  refine ⟨rfl, ?_⟩
  norm_num [playDown, ensureCtx, initState, buildNoiseBuffer, noiseBufferLen, env1,
    playDownLayers, jitter, downRandCount, resolveProfile, lookupProfile, PROFILES,
    protoKeys, red, layersOf, Layer.isNoiseBody]

/-- C9 amended: the noise-body layer is skipped exactly when the buffer is
still absent after ensureCtx runs, i.e. when a context already exists but
the buffer field is empty (a state the engine's own operations never
produce); there, for a switchId that is not an Object.prototype member
name, the thud is still scheduled and the click is scheduled iff
clickFrequency > 0, while for a prototype member name the call throws on
the NaN thud-frequency write before scheduling anything. -/
theorem noise_skip_amended (env : Env) (id : String) (s : EngineState) (c : ℕ)
    (hctx : s.ctx = some c) (hbuf : s.noiseBuffer = none) (hid : id ∉ protoKeys) :
    ((layersOf (playDown env id s)).any Layer.isNoiseBody = false ∧
      (layersOf (playDown env id s)).any Layer.isThud = true ∧
      ((layersOf (playDown env id s)).any Layer.isClick = true ↔
        0 < (lookupProfile id).clickFreq)) ∧
      (∀ idp, idp ∈ protoKeys → playDown env idp s = .error ()) := by
  constructor
  · have hok : playDown env id s = .ok
        ({ s with randPos := s.randPos + downRandCount (lookupProfile id) s.noiseBuffer },
          playDownLayers (lookupProfile id) s.noiseBuffer
            (fun n => env.rand (s.randPos + n))) := by
      simp [playDown, ensureCtx_of_some env s c hctx, resolveProfile_of_not_proto id hid]
    rw [hok]
    simp only [layersOf]
    rw [hbuf]
    exact ⟨playDownLayers_noise_none _ _, playDownLayers_thud_any _ _ _,
      playDownLayers_click_iff _ _ _⟩
  · intro idp hp
    simp [playDown, ensureCtx_of_some env s c hctx, resolveProfile_of_proto idp hp]

/-- C9 witness: a blue key-down from the context-only state, and the throw
for the toString id in that same state. -/
theorem noise_skip_amended_witness :
    ((layersOf (playDown env1 ("blue") stNoBuf)).any Layer.isNoiseBody = false ∧
      (layersOf (playDown env1 ("blue") stNoBuf)).any Layer.isThud = true ∧
      ((layersOf (playDown env1 ("blue") stNoBuf)).any Layer.isClick = true ↔
        0 < (lookupProfile ("blue")).clickFreq)) ∧
      playDown env1 ("toString") stNoBuf = .error () := by
  have h := noise_skip_amended env1 ("blue") stNoBuf 0 rfl rfl (by decide)
  exact ⟨h.1, h.2 ("toString") (by decide)⟩

/-- C10 counterexample: from the ready state after a first key-down,
ensure-device returns normally for playDown with the toString id, yet the
call then throws on the NaN filter-frequency write before starting
anything, so no noise-body layer is scheduled although the buffer exists:
ensure-device returning normally does not make the layer inevitable. -/
theorem ensure_ok_but_no_noise_cex :
    ensureCtx env1 sAfterDownRed = .ok sAfterDownRed ∧
      playDown env1 ("toString") sAfterDownRed = .error () ∧
      (layersOf (playDown env1 ("toString") sAfterDownRed)).any Layer.isNoiseBody = false := by
  refine ⟨ensureCtx_of_some env1 sAfterDownRed 0 rfl, ?_, ?_⟩
  · simp [playDown, ensureCtx_of_some env1 sAfterDownRed 0 rfl,
      resolveProfile_of_proto ("toString") (by decide)]
  · simp [playDown, ensureCtx_of_some env1 sAfterDownRed 0 rfl,
      resolveProfile_of_proto ("toString") (by decide), layersOf]

/-- C10 amended: the invariant that a non-null context implies a non-null
noise buffer holds of the fresh engine and is preserved by every playDown
and playUp call (also across any call sequence); and every call that
itself returns normally from a state satisfying it schedules the
noise-body layer — the buffer-missing branch is unreachable.  The
consequent is conditioned on the call returning normally, not merely on
ensure-device succeeding: a prototype-member switchId passes ensure-device
and then throws before scheduling anything. -/
theorem ctx_buffer_invariant :
    BufInv initState ∧
      (∀ (env : Env) (c : Call) (s s1 : EngineState) (ls : List Layer),
        BufInv s → step env c s = .ok (s1, ls) →
          BufInv s1 ∧ ls.any Layer.isNoiseBody = true) ∧
      (∀ (env : Env) (cs : List Call) (s : EngineState),
        BufInv s → BufInv (runState env s cs)) :=
  ⟨by decide, fun env c s s1 ls => step_ok_inv env c s s1 ls,
    fun env cs s => runState_inv env cs s⟩

/-- C10 witness: the state and layers of a first red key-down. -/
theorem ctx_buffer_invariant_witness :
    sAfterDownRed.noiseBuffer.isSome = true ∧
      layersDownRed.any Layer.isNoiseBody = true := by
  have h := ctx_buffer_invariant.2.1 env1 (Call.down ("red")) initState sAfterDownRed
    layersDownRed (by decide)
    (by norm_num [step, playDown, ensureCtx, initState, buildNoiseBuffer, noiseBufferLen,
      env1, playDownLayers, jitter, downRandCount, resolveProfile, lookupProfile, PROFILES,
      protoKeys, sAfterDownRed,
      layersDownRed, red])
  exact ⟨h.1 rfl, h.2⟩

end KeySound
